import Mathlib

/-!
Shallow embedding of the content-generation core of the `lec_notes` repository
(FastAPI + LangGraph backend), together with theorems settling the frozen
claims about it.

Components embedded (one section each, translated from the Python source):
* `app/services/embedding_service.py`  — text cleaning and batched embedding
* `app/services/chunking_service.py`   — semantic chunking of generated text
* `app/services/vector_service.py`     — vector retrieval (`find_relevant_context`)
* `app/services/conversation_service.py` — token-budget conversation truncation
* `app/langgraph/nodes.py`             — the five workflow handlers

Python strings are modelled as `List Char` for the embedding service (where
character counts and slices matter) and as `String` elsewhere.  External model
calls (Azure OpenAI chat / embedding endpoints) are modelled as oracle
parameters; a call that may raise is an `Except String` value.  Database rows
are modelled as lists of records, and SQL queries as list operations.
-/

namespace LecNotes

/-! ## Python-semantics helpers -/

/-- Python list indexing `l[i]` for `int` indices: a negative index counts from
the end; an index that is still out of range raises `IndexError`, modelled as
`none`. -/
def pyGet? (l : List α) (i : Int) : Option α :=
  let j := if i < 0 then i + l.length else i
  if 0 ≤ j then l.get? j.toNat else none

/-- Clamp one endpoint of a Python slice `l[a:b]` to `[0, len]`,
resolving negative endpoints from the end of the list. -/
def sliceIdx (n : Nat) (i : Int) : Nat :=
  (if i < 0 then max (i + n) 0 else min i n).toNat

/-- Python slice `l[a:b]` (step 1). -/
def pySlice (l : List α) (a b : Int) : List α :=
  (l.take (sliceIdx l.length b)).drop (sliceIdx l.length a)

/-- Python `str.split()` with no argument: split on whitespace runs,
discarding empty pieces. -/
def pySplitWs (s : String) : List String :=
  (s.split Char.isWhitespace).filter (fun w => w ≠ "")

/-- The characters removed by `word.strip('.,!?')` in the generation nodes. -/
def isConceptPunct (c : Char) : Bool :=
  c = '.' || c = ',' || c = '!' || c = '?'

/-- Python `word.strip('.,!?')`: drop the given characters from both ends. -/
def pyStripPunct (s : String) : String :=
  ⟨((s.data.dropWhile isConceptPunct).reverse.dropWhile isConceptPunct).reverse⟩

/-- Python truthiness of `Optional[str]`: `None` and `""` are falsy. -/
def pyTruthyStr : Option String → Bool
  | none => false
  | some s => s ≠ ""

/-- Insertion of an element into a list sorted by the boolean relation `le`
(used to model SQL `ORDER BY`). -/
def insertBy (le : α → α → Bool) (a : α) : List α → List α
  | [] => [a]
  | b :: l => if le a b then a :: b :: l else b :: insertBy le a l

/-- Insertion sort by a boolean relation, modelling SQL `ORDER BY`. -/
def sortBy (le : α → α → Bool) : List α → List α
  | [] => []
  | a :: l => insertBy le a (sortBy le l)


/-! ## Embedding service (`app/services/embedding_service.py`)

Texts are modelled as `List Char` (Python `str`, `len` = code-point count).
The three `re.sub` image-payload removals of `_clean_text_for_embedding` are
modelled by an abstract parameter `strip : List Char → List Char`; they fire
only on texts containing image/base64 markers and every theorem below holds
for an arbitrary `strip`.  The Azure embedding endpoint is the oracle
`f : List Char → Vec`, applied once per element of each batch, and the list of
batches sent (one API call per batch) is returned alongside the vectors. -/

/-- Embedding vectors (`text-embedding-ada-002` returns 1536 floats; the
claims do not depend on the entries, so the carrier is `List Rat`). -/
abbrev Vec := List Rat

/-- `max_chars = 30000` in `_clean_text_for_embedding`. -/
def maxChars : Nat := 30000

/-- The literal appended after hard truncation:
`"\n\n[CONTENT TRUNCATED FOR EMBEDDING]"`. -/
def truncationMarker : List Char := "\n\n[CONTENT TRUNCATED FOR EMBEDDING]".data

/-- `EmbeddingService._clean_text_for_embedding`: empty text is returned as
is; otherwise the image-payload substitutions run (`strip`), and a result
longer than `max_chars` is truncated to `max_chars` characters with the
truncation marker appended. -/
def cleanTextForEmbedding (strip : List Char → List Char) (text : List Char) :
    List Char :=
  if text = [] then text
  else
    let t := strip text
    if t.length > maxChars then t.take maxChars ++ truncationMarker else t

/-- `max_batch_size = 20`. -/
def maxBatchSize : Nat := 20

/-- The batching loop `for i in range(0, len(cleaned_texts), self.max_batch_size)`:
consecutive slices of at most `max_batch_size` elements. -/
def toBatches : List α → List (List α)
  | [] => []
  | a :: l => (a :: l).take maxBatchSize :: toBatches ((a :: l).drop maxBatchSize)
termination_by l => l.length
decreasing_by
  simp only [List.length_drop, List.length_cons, maxBatchSize]
  omega

/-- `EmbeddingService.embed_texts`: clean every text, batch the cleaned texts,
issue one model call per batch (`_embed_batch`, which maps the oracle `f` over
the batch), and concatenate the per-batch results.  Returns the vectors
together with the list of batches sent, one entry per API call. -/
def embed_texts (strip : List Char → List Char) (f : List Char → Vec)
    (texts : List (List Char)) : List Vec × List (List (List Char)) :=
  if texts = [] then ([], [])
  else
    let cleaned := texts.map (cleanTextForEmbedding strip)
    let calls := toBatches cleaned
    ((calls.map (fun b => b.map f)).flatten, calls)

/-- Batch sizes produced by `toBatches` as a function of the input length. -/
def batchLens : Nat → List Nat
  | 0 => []
  | n + 1 => min maxBatchSize (n + 1) :: batchLens (n + 1 - maxBatchSize)
termination_by n => n
decreasing_by simp only [maxBatchSize]; omega




/-! ## Chunking service (`app/services/chunking_service.py`)

`_identify_chunk_type` classifies a paragraph with `re.search` over the
definition/example/procedure pattern lists and substring checks for
applications, defaulting to `"concept"`.  Its regex engine is abstracted as
the parameter `identifyChunkType : String → String`; `chunk_content` consumes
it as a black box, and every claim below holds for an arbitrary classifier. -/

/-- A chunk dict produced by `ChunkingService.chunk_content`
(`{'type': …, 'content': …, 'subtopic_title': …}`). -/
structure ChunkData where
  type : String
  content : String
  subtopic_title : String
  deriving Repr, DecidableEq

/-- The paragraph split of `chunk_content`:
`[p.strip() for p in content.split('\n\n') if p.strip()]`. -/
def paragraphsOf (content : String) : List String :=
  ((content.splitOn "\n\n").map String.trim).filter (fun p => p ≠ "")

/-- The chunk-collection loop of `ChunkingService.chunk_content`: classify
each paragraph and keep those longer than 50 characters. -/
def keptChunks (identifyChunkType : String → String)
    (content : String) (subtopic_title : String) : List ChunkData :=
  (paragraphsOf content).filterMap (fun paragraph =>
    if paragraph.trim.length > 50 then
      some { type := identifyChunkType paragraph, content := paragraph.trim,
             subtopic_title := subtopic_title }
    else none)

/-- The fallback chunk appended when no kept chunk classified as
`"concept"`. -/
def fallbackChunk (subtopic_title : String) : ChunkData :=
  { type := "concept"
    content := "Core concept: " ++ subtopic_title
    subtopic_title := subtopic_title }

/-- `ChunkingService.chunk_content`: the kept chunks, with the synthetic
`"Core concept: {subtopic_title}"` chunk appended when
`not any(chunk['type'] == 'concept' for chunk in chunks)`. -/
def chunk_content (identifyChunkType : String → String)
    (content : String) (subtopic_title : String) : List ChunkData :=
  let chunks := keptChunks identifyChunkType content subtopic_title
  if ¬ chunks.any (fun c => c.type == "concept") then
    chunks ++ [fallbackChunk subtopic_title]
  else chunks

/-! ## Vector service (`app/services/vector_service.py`)

Database rows for `subtopics` and `content_chunks`, and
`find_relevant_context` as a query over them.  The Azure embedding call is
the oracle `embedSingle`; pgvector's `cosine_distance` is the abstract
`dist : Vec → Vec → Rat` (the retrieval-isolation claim holds for any
metric). -/

/-- A row of the `subtopics` table (`app/models/notes.py`);
`published_at` is `NULL` or a timestamp. -/
structure SubtopicRow where
  id : Int
  topic_id : Int
  order : Int
  title : String
  content : String
  is_published : Bool
  published_at : Option Int
  deriving Repr, DecidableEq

/-- A row of the `content_chunks` table (`app/models/content_chunks.py`). -/
structure ContentChunkRow where
  id : Int
  subtopic_id : Int
  chunk_type : String
  content : String
  embedding : Vec
  token_count : Int
  deriving Repr, DecidableEq

/-- A result dict of `find_relevant_context`. -/
structure RetrievedChunk where
  content : String
  type : String
  subtopic_title : String
  subtopic_order : Int
  similarity_score : Rat
  deriving Repr, DecidableEq

/-- The tables touched by the vector service. -/
structure VectorDb where
  subtopics : List SubtopicRow
  chunks : List ContentChunkRow
  deriving Repr, DecidableEq

/-- `VectorService.find_relevant_context`: embed the query, join
`content_chunks` with `subtopics`, keep rows of the given topic with
`order < current_subtopic_index + 1` and `is_published = true`, order by
ascending cosine distance, take `limit`, and report
`similarity_score = 1 - distance`. -/
def find_relevant_context (embedSingle : String → Vec) (dist : Vec → Vec → Rat)
    (db : VectorDb) (topic_id : Int) (query_text : String)
    (current_subtopic_index : Int) (limit : Nat) : List RetrievedChunk :=
  let query_embedding := embedSingle query_text
  let joined := db.chunks.flatMap (fun cc =>
    (db.subtopics.filter (fun s => s.id == cc.subtopic_id)).map (fun s => (cc, s)))
  let filtered := joined.filter (fun p =>
    p.2.topic_id == topic_id &&
    decide (p.2.order < current_subtopic_index + 1) &&
    p.2.is_published)
  let sorted := sortBy (fun p q =>
    decide (dist p.1.embedding query_embedding ≤ dist q.1.embedding query_embedding)) filtered
  (sorted.take limit).map (fun p =>
    { content := p.1.content
      type := p.1.chunk_type
      subtopic_title := p.2.title
      subtopic_order := p.2.order
      similarity_score := 1 - dist p.1.embedding query_embedding })

/-! ## Conversation service (`app/services/conversation_service.py`)

`truncate_conversation_if_needed` loads the session's messages in
`created_at` order, and when their token total exceeds `max_tokens = 4000`
walks the non-system messages newest-first, keeping each message that still
fits into the remaining budget and calling `db.delete` on each message that
does not.  Rows are modelled as records carrying the primary key `id`; two
rows of one conversation never compare equal. -/

/-- A row of `conversation_messages`, in `created_at` order inside a list. -/
structure ConvMessage where
  id : Int
  role : String
  content : String
  token_count : Nat
  deriving Repr, DecidableEq

/-- Token total of a message list (`sum(msg.token_count for msg in …)`),
computed in `Int` because the Python budget arithmetic can go negative. -/
def sumTokens (l : List ConvMessage) : Int :=
  (l.map (fun m => (m.token_count : Int))).sum

/-- `self.max_tokens = 4000`. -/
def maxConversationTokens : Nat := 4000

/-- The `for msg in reversed(other_messages)` loop: the input list is the
non-system messages newest-first; returns `(messages_to_keep, deleted)` with
the kept messages in chronological order, exactly as built by
`messages_to_keep.insert(0, msg)`. -/
def keepRecent (tokens_to_keep : Int) : List ConvMessage → Int →
    List ConvMessage × List ConvMessage
  | [], _ => ([], [])
  | msg :: rest, current_tokens =>
    if current_tokens + msg.token_count ≤ tokens_to_keep then
      ((keepRecent tokens_to_keep rest (current_tokens + msg.token_count)).1 ++ [msg],
       (keepRecent tokens_to_keep rest (current_tokens + msg.token_count)).2)
    else
      ((keepRecent tokens_to_keep rest current_tokens).1,
       msg :: (keepRecent tokens_to_keep rest current_tokens).2)

/-- Outcome of `truncate_conversation_if_needed`: the rows still persisted
(in order), the rows passed to `db.delete`, and the value written to
`session.conversation_token_count` (`none` when no truncation ran). -/
structure TruncationResult where
  retained : List ConvMessage
  deleted : List ConvMessage
  new_token_count : Option Int
  deriving Repr, DecidableEq

/-- `ConversationService.truncate_conversation_if_needed` on the ordered
message list of one session. -/
def truncate_conversation_if_needed (messages : List ConvMessage) :
    TruncationResult :=
  let total_tokens := sumTokens messages
  if total_tokens > (maxConversationTokens : Int) then
    let system_messages := messages.filter (fun m => m.role == "system")
    let other_messages := messages.filter (fun m => m.role != "system")
    let tokens_to_keep : Int := (maxConversationTokens : Int) - sumTokens system_messages
    let kd := keepRecent tokens_to_keep other_messages.reverse 0
    { retained := messages.filter (fun m => !(kd.2.contains m))
      deleted := kd.2
      new_token_count := some (sumTokens (system_messages ++ kd.1)) }
  else
    { retained := messages, deleted := [], new_token_count := none }

/-- Modelled from the spec: "evicts the oldest non-system messages
(oldest-first) until under budget" — deletes the shortest prefix of the
chronologically ordered non-system messages whose removal brings the
retained total within `budget`.  Used only to exhibit the divergence of the
code from this policy. -/
def specEvictOldestFirst (budget : Int) : List ConvMessage →
    List ConvMessage × List ConvMessage
  | [] => ([], [])
  | msg :: rest =>
    if sumTokens (msg :: rest) ≤ budget then (msg :: rest, [])
    else
      let kd := specEvictOldestFirst budget rest
      (kd.1, msg :: kd.2)

/-! ## Workflow state and handlers (`app/langgraph/state.py`, `app/langgraph/nodes.py`)

`GenerationState` is the pydantic model of `state.py`; every handler builds
`updated_state = state.dict()`, mutates a few keys and returns
`GenerationState(**updated_state)`, so each handler is a function
`GenerationState → GenerationState` (plus the database list for the handlers
that touch it).  The Azure OpenAI chat calls are `Except String String`
oracles (`.error` covers both API failures and the `AttributeError` raised
because `generate_subtopic_content` / `suggest_improvements` do not exist on
the client — see azure_openai.py).  Each handler also returns the list of
collaborator calls it attempted, used to settle the context-strategy claim. -/

/-- The `edit_data` dict: optional `"content"` and `"title"` keys. -/
structure EditData where
  content : Option String
  title : Option String
  deriving Repr, DecidableEq

/-- `GenerationState` (`app/langgraph/state.py`), with
`generated_content : Dict[int, str]` as an association list. -/
structure GenerationState where
  session_id : Int
  topic_id : Int
  topic_title : String
  topic_description : String
  level : String
  subtopic_titles : List String
  current_subtopic_index : Int
  total_subtopics : Int
  generated_content : List (Int × String) := []
  published_subtopics : List Int := []
  previous_concepts : List String := []
  upcoming_concepts : List String := []
  action : Option String := none
  edit_data : Option EditData := none
  consult_request : Option String := none
  current_content : Option String := none
  ai_suggestions : Option String := none
  error_message : Option String := none
  previous_subtopics_content : List String := []
  key_concepts_extracted : List String := []
  conversation_initialized : Bool := false
  conversation_token_count : Int := 0
  last_conversation_message_id : Option Int := none
  deriving Repr, DecidableEq

/-- `d[i]` lookup in the `generated_content` dict (`i in d` ↔ `isSome`). -/
def dictGet? (d : List (Int × String)) (i : Int) : Option String :=
  (d.find? (fun kv => kv.1 == i)).map (fun kv => kv.2)

/-- `d[i] = v` on the `generated_content` dict. -/
def dictInsert (d : List (Int × String)) (i : Int) (v : String) :
    List (Int × String) :=
  if (d.find? (fun kv => kv.1 == i)).isSome then
    d.map (fun kv => if kv.1 == i then (i, v) else kv)
  else d ++ [(i, v)]

/-- Python list element assignment `l[i] = v` (`IndexError` as `none`). -/
def pySetAt (l : List α) (i : Int) (v : α) : Option (List α) :=
  let j := if i < 0 then i + l.length else i
  if 0 ≤ j ∧ j < (l.length : Int) then some (l.set j.toNat v) else none

/-- A collaborator call attempted by a handler. -/
inductive ServiceCall where
  | generateSubtopicContent (topic_title subtopic_title level : String)
      (previous_concepts upcoming_concepts : List String)
  | findRelevantContextCall (topic_id : Int) (query_text : String)
      (current_index : Int) (lim : Nat)
  | suggestImprovements (content improvement_request : String)
  deriving Repr, DecidableEq

/-- Whether a call is a vector-retrieval call (`find_relevant_context`). -/
def ServiceCall.isRetrieval : ServiceCall → Bool
  | findRelevantContextCall .. => true
  | _ => false

/-- The context heuristic shared by `generate_content_node` and
`next_subtopic_node` (nodes.py lines 20–26 and 260–266): for each earlier
index with generated content take the first 50 whitespace-separated words,
keep those longer than 4 characters, strip `'.,!?'`, then deduplicate and
keep 10.  Python deduplicates via `list(set(…))`, whose order is
unspecified; the model keeps first occurrences (no claim depends on the
order). -/
def previousConceptsHeuristic (generated_content : List (Int × String))
    (current_index : Int) : List String :=
  if current_index > 0 then
    let collected := (List.range current_index.toNat).flatMap (fun i =>
      match dictGet? generated_content (i : Int) with
      | some content =>
        let content_words := pySlice (pySplitWs content) 0 50
        (content_words.filter (fun word => word.length > 4)).map pyStripPunct
      | none => [])
    pySlice collected.eraseDup 0 10
  else []

/-- `subtopic_titles[i+1:i+3] if i < len(subtopic_titles) - 1 else []`. -/
def upcomingConceptsOf (subtopic_titles : List String) (i : Int) : List String :=
  if i < (subtopic_titles.length : Int) - 1 then
    pySlice subtopic_titles (i + 1) (i + 3)
  else []

/-- `GenerationNodes.generate_content_node`.  The first statement of the
`try` block indexes `state.subtopic_titles[state.current_subtopic_index]`;
an `IndexError` there is caught by the blanket `except`, which formats the
exception into `error_message`.  On success the node stores the content,
clears `error_message` and sets `action = None`; on failure it sets
`error_message` and `action = None`. -/
def generate_content_node (genContent : Except String String)
    (state : GenerationState) : GenerationState × List ServiceCall :=
  match pyGet? state.subtopic_titles state.current_subtopic_index with
  | none =>
    ({ state with
        error_message := some "Generation failed: list index out of range"
        action := none }, [])
  | some subtopic_title =>
    let current_index := state.current_subtopic_index
    let previous_concepts := previousConceptsHeuristic state.generated_content current_index
    let upcoming_concepts := upcomingConceptsOf state.subtopic_titles current_index
    let call := ServiceCall.generateSubtopicContent state.topic_title subtopic_title
      state.level previous_concepts upcoming_concepts
    match genContent with
    | .ok content =>
      ({ state with
          current_content := some content
          generated_content := dictInsert state.generated_content current_index content
          error_message := none
          action := none }, [call])
    | .error e =>
      ({ state with
          error_message := some ("Generation failed: " ++ e)
          action := none }, [call])

/-- `GenerationNodes.edit_content_node`.  With `edit_data["content"]`
present it overwrites the current content (and the title when provided —
the title assignment `subtopic_titles[current_index] = …` can raise
`IndexError`, caught by the `except`, which rebuilds the state from the
original); otherwise it records "No edit data provided". -/
def edit_content_node (state : GenerationState) : GenerationState :=
  match state.edit_data with
  | some ed =>
    match ed.content with
    | some c =>
      let current_index := state.current_subtopic_index
      let withContent :=
        { state with
            current_content := some c
            generated_content := dictInsert state.generated_content current_index c }
      match ed.title with
      | some t =>
        match pySetAt state.subtopic_titles current_index t with
        | some titles =>
          { withContent with
              subtopic_titles := titles
              error_message := none
              action := none }
        | none =>
          { state with
              error_message := some "Edit failed: list index out of range"
              action := none }
      | none =>
        { withContent with error_message := none, action := none }
    | none =>
      { state with
          error_message := some "No edit data provided"
          action := none }
  | none =>
    { state with
        error_message := some "No edit data provided"
        action := none }

/-- The three-step content resolution of `consult_ai_node`: `current_content`
if truthy, else `generated_content[current_index]`, else the database (exact
`(topic_id, order = index+1)` match, falling back to the highest-order
subtopic of the topic, used only when its `content` is truthy). -/
def consultContentSource (db : List SubtopicRow) (state : GenerationState) :
    Option String :=
  if pyTruthyStr state.current_content then state.current_content
  else match dictGet? state.generated_content state.current_subtopic_index with
  | some c => some c
  | none =>
    let exact := db.find? (fun s =>
      s.topic_id == state.topic_id &&
      s.order == state.current_subtopic_index + 1)
    let subtopic := match exact with
      | some s => some s
      | none =>
        (sortBy (fun a b : SubtopicRow => decide (b.order ≤ a.order))
          (db.filter (fun s : SubtopicRow => s.topic_id == state.topic_id))).head?
    match subtopic with
    | some s => if s.content ≠ "" then some s.content else none
    | none => none

/-- `GenerationNodes.consult_ai_node`.  Reads (never writes) the `subtopics`
table, calls `suggest_improvements` when content is found, and only ever
changes `ai_suggestions`, `error_message` and `action`; the database list is
returned untouched, as the node issues no `db.add`/`db.commit`. -/
def consult_ai_node (suggest : Except String String) (db : List SubtopicRow)
    (state : GenerationState) :
    GenerationState × List SubtopicRow × List ServiceCall :=
  match state.consult_request with
  | some req =>
    if req ≠ "" then
      match consultContentSource db state with
      | some current_content =>
        let call := ServiceCall.suggestImprovements current_content req
        match suggest with
        | .ok suggestions =>
          ({ state with
              ai_suggestions := some suggestions
              error_message := none
              action := none }, db, [call])
        | .error e =>
          ({ state with
              error_message := some ("AI consultation failed: " ++ e)
              action := none }, db, [call])
      | none =>
        ({ state with
            error_message := some ("No content found for subtopic " ++
              toString (state.current_subtopic_index + 1) ++
              ". Generated content keys: " ++
              toString (state.generated_content.map (fun kv => kv.1)))
            action := none }, db, [])
    else
      ({ state with
          error_message := some "No consultation request provided"
          action := none }, db, [])
  | none =>
    ({ state with
        error_message := some "No consultation request provided"
        action := none }, db, [])

/-- The content resolution of `publish_subtopic_node`: `current_content` if
truthy, else `generated_content[current_index]` (whatever its value), else
the `ValueError` path (`none`). -/
def publishContentSource (state : GenerationState) : Option String :=
  if pyTruthyStr state.current_content then state.current_content
  else dictGet? state.generated_content state.current_subtopic_index

/-- Replace the first element satisfying `p` (SQLAlchemy `.first()` row
update). -/
def updateFirst (p : α → Bool) (f : α → α) : List α → List α
  | [] => []
  | a :: l => if p a then f a :: l else a :: updateFirst p f l

/-- `GenerationNodes.publish_subtopic_node`.  `now` is `func.now()` and
`newId` the autoincrement key for a freshly inserted row.  When no content
source resolves, the `raise ValueError(f"No content available to publish for
subtopic {…}")` lands in the `except`, which records the message and leaves
the database untouched (`db.commit()` is never reached); the same holds for
an `IndexError` from `state.subtopic_titles[current_index]`.  Otherwise the
`(topic_id, order = index+1)` row is created or overwritten with
`is_published = True` and `published_at = now`. -/
def publish_subtopic_node (now newId : Int) (db : List SubtopicRow)
    (state : GenerationState) : GenerationState × List SubtopicRow :=
  let current_index := state.current_subtopic_index
  match publishContentSource state with
  | none =>
    ({ state with
        error_message := some ("Publishing failed: No content available to publish for subtopic "
          ++ toString (current_index + 1))
        action := none }, db)
  | some content_to_publish =>
    match pyGet? state.subtopic_titles current_index with
    | none =>
      ({ state with
          error_message := some "Publishing failed: list index out of range"
          action := none }, db)
    | some title =>
      let isTarget := fun (s : SubtopicRow) =>
        s.topic_id == state.topic_id && s.order == current_index + 1
      let db' :=
        if (db.find? isTarget).isSome then
          updateFirst isTarget (fun s =>
            { s with
                title := title
                content := content_to_publish
                is_published := true
                published_at := some now }) db
        else
          db ++ [{ id := newId
                   topic_id := state.topic_id
                   order := current_index + 1
                   title := title
                   content := content_to_publish
                   is_published := true
                   published_at := some now }]
      ({ state with
          current_content := some content_to_publish
          published_subtopics := state.published_subtopics ++ [current_index]
          error_message := none
          action := none }, db')

/-- `GenerationNodes.next_subtopic_node`.  When a further subtopic exists it
advances the index and regenerates with the same heuristic as
`generate_content_node` (clearing `ai_suggestions`, `consult_request`,
`edit_data`); a generation failure rebuilds the state from the original (so
the index is not advanced) with the error recorded.  When no further
subtopic exists the `else` branch only logs, so the state is returned with
just `action` cleared. -/
def next_subtopic_node (genContent : Except String String)
    (state : GenerationState) : GenerationState × List ServiceCall :=
  if state.current_subtopic_index < state.total_subtopics - 1 then
    let new_index := state.current_subtopic_index + 1
    match pyGet? state.subtopic_titles new_index with
    | none =>
      ({ state with
          error_message := some "Next subtopic failed: list index out of range"
          action := none }, [])
    | some subtopic_title =>
      let previous_concepts := previousConceptsHeuristic state.generated_content new_index
      let upcoming_concepts := upcomingConceptsOf state.subtopic_titles new_index
      let call := ServiceCall.generateSubtopicContent state.topic_title subtopic_title
        state.level previous_concepts upcoming_concepts
      match genContent with
      | .ok content =>
        ({ state with
            current_subtopic_index := new_index
            current_content := some content
            generated_content := dictInsert state.generated_content new_index content
            ai_suggestions := none
            consult_request := none
            edit_data := none
            error_message := none
            action := none }, [call])
      | .error e =>
        ({ state with
            error_message := some ("Next subtopic failed: " ++ e)
            action := none }, [call])
  else
    ({ state with action := none }, [])

/-! ## Concrete instances used by counterexamples and witnesses -/

/-- A state dispatched with `action='generate'` at the second of two
subtopics, with published content for the first. -/
def genDispatchState : GenerationState :=
  { session_id := 1
    topic_id := 1
    topic_title := "Topic"
    topic_description := ""
    level := "beginner"
    subtopic_titles := ["Intro", "Advanced"]
    current_subtopic_index := 1
    total_subtopics := 2
    generated_content := [(0, "Earlier generated lesson content about gradients")]
    action := some "generate" }

/-- A two-row store: one published order-1 subtopic of topic 7 owning one
chunk. -/
def sampleVectorDb : VectorDb :=
  { subtopics := [{ id := 1, topic_id := 7, order := 1, title := "S1",
                    content := "body", is_published := true,
                    published_at := some 5 }]
    chunks := [{ id := 1, subtopic_id := 1, chunk_type := "concept",
                 content := "stored chunk", embedding := [], token_count := 2 }] }

/-- The result row retrieved from `sampleVectorDb` for any query under the
constant-distance metric. -/
def sampleRetrieved : RetrievedChunk :=
  { content := "stored chunk", type := "concept", subtopic_title := "S1",
    subtopic_order := 1, similarity_score := 1 }

/-- A publish-time state whose only content source is the empty string
stored in `generated_content[0]`. -/
def emptyContentState : GenerationState :=
  { session_id := 1
    topic_id := 3
    topic_title := "T"
    topic_description := ""
    level := "basic"
    subtopic_titles := ["S1"]
    current_subtopic_index := 0
    total_subtopics := 1
    generated_content := [(0, "")]
    action := some "publish" }

/-- A publish-time state with non-empty `current_content`. -/
def publishableState : GenerationState :=
  { session_id := 1
    topic_id := 3
    topic_title := "T"
    topic_description := ""
    level := "basic"
    subtopic_titles := ["S1"]
    current_subtopic_index := 0
    total_subtopics := 1
    current_content := some "real lesson text"
    action := some "publish" }

/-- A state at the final subtopic (`index = total - 1`), as received by the
`next` handler when no further subtopic exists. -/
def lastSubtopicState : GenerationState :=
  { session_id := 1
    topic_id := 3
    topic_title := "T"
    topic_description := ""
    level := "basic"
    subtopic_titles := ["S1", "S2"]
    current_subtopic_index := 1
    total_subtopics := 2
    generated_content := [(0, "a"), (1, "b")]
    error_message := some "stale error"
    action := some "next" }

/-- A conversation over budget: a 3990-token system message, then (oldest
first) a 5-token, a 100-token and a 5-token user message. -/
def overBudgetConversation : List ConvMessage :=
  [ { id := 1, role := "system", content := "sys", token_count := 3990 },
    { id := 2, role := "user", content := "old small", token_count := 5 },
    { id := 3, role := "user", content := "middle big", token_count := 100 },
    { id := 4, role := "user", content := "new small", token_count := 5 } ]

/-! ## Helper lemmas -/

theorem mem_insertBy {le : α → α → Bool} {a x : α} {l : List α} :
    x ∈ insertBy le a l → x = a ∨ x ∈ l := by
  induction l with
  | nil => intro h; simp [insertBy] at h; exact Or.inl h
  | cons b t ih =>
    intro h
    rw [insertBy] at h
    by_cases hle : le a b = true
    · simp only [hle, if_pos] at h
      rcases List.mem_cons.mp h with h | h
      · exact Or.inl h
      · exact Or.inr h
    · simp only [hle, if_neg, Bool.false_eq_true, not_false_eq_true] at h
      rcases List.mem_cons.mp h with h | h
      · exact Or.inr (by simp [h])
      · rcases ih h with h' | h'
        · exact Or.inl h'
        · exact Or.inr (by simp [h'])

theorem mem_sortBy {le : α → α → Bool} {x : α} {l : List α} :
    x ∈ sortBy le l → x ∈ l := by
  induction l with
  | nil => intro h; simp [sortBy] at h
  | cons a t ih =>
    intro h
    rw [sortBy] at h
    rcases mem_insertBy h with h' | h'
    · simp [h']
    · simp [ih h']

theorem toBatches_flatten (l : List α) : (toBatches l).flatten = l := by
  induction l using toBatches.induct with
  | case1 => simp [toBatches]
  | case2 a t ih =>
    rw [toBatches, List.flatten]
    rw [ih]
    exact List.take_append_drop _ _

theorem toBatches_sizes (l : List α) :
    ∀ b ∈ toBatches l, b.length ≤ maxBatchSize ∧ b ≠ [] := by
  induction l using toBatches.induct with
  | case1 => intro b hb; simp [toBatches] at hb
  | case2 a t ih =>
    intro b hb
    rw [toBatches] at hb
    rcases List.mem_cons.mp hb with h | h
    · subst h
      constructor
      · simp only [List.length_take]
        exact Nat.min_le_left _ _
      · simp [maxBatchSize]
    · exact ih b h

theorem toBatches_map_length (l : List α) :
    (toBatches l).map List.length = batchLens l.length := by
  induction l using toBatches.induct with
  | case1 => simp [toBatches, batchLens]
  | case2 a t ih =>
    rw [toBatches, List.map_cons, ih]
    simp only [List.length_drop, List.length_cons, List.length_take]
    conv_rhs => rw [batchLens]


theorem truncationMarker_length : truncationMarker.length = 35 := by decide

theorem toBatches_map_map_flatten (f : α → β) (l : List α) :
    ((toBatches l).map (fun b => b.map f)).flatten = l.map f := by
  induction l using toBatches.induct with
  | case1 => simp [toBatches]
  | case2 a t ih =>
    rw [toBatches, List.map_cons, List.flatten_cons, ih]
    rw [List.map_take, List.map_drop, List.take_append_drop]

theorem batchLens_45 : batchLens 45 = [20, 20, 5] := by
  simp [batchLens, maxBatchSize]

/-- C7 (amended): the cleaned text never exceeds 30035 = `max_chars` plus the
35-character truncation marker, for any behaviour of the image-payload
substitutions. -/
theorem clean_text_length_le (strip : List Char → List Char) (text : List Char) :
    (cleanTextForEmbedding strip text).length ≤ 30035 := by
  by_cases h0 : text = []
  · simp [cleanTextForEmbedding, h0]
  · rw [cleanTextForEmbedding, if_neg h0]
    show (if (strip text).length > maxChars then
        (strip text).take maxChars ++ truncationMarker else strip text).length ≤ 30035
    by_cases h1 : (strip text).length > maxChars
    · rw [if_pos h1, List.length_append, List.length_take, truncationMarker_length]
      simp only [maxChars]
      omega
    · rw [if_neg h1]
      simp only [maxChars, gt_iff_lt, not_lt] at h1
      omega

/-- C7 counterexample: a text of 30001 plain characters (on which the
image-payload regexes do not fire, hence the identity substitution) is
cleaned to 30035 characters — the string handed to the embedding call
exceeds the 30,000-character ceiling. -/
theorem clean_text_exceeds_ceiling :
    (cleanTextForEmbedding id (List.replicate 30001 'a')).length = 30035 ∧
    ¬ (cleanTextForEmbedding id (List.replicate 30001 'a')).length ≤ 30000 := by
  have hne : (List.replicate 30001 'a' : List Char) ≠ [] := by
    simp only [ne_eq, List.replicate_eq_nil_iff]
    omega
  have h30 : (cleanTextForEmbedding id (List.replicate 30001 'a')).length = 30035 := by
    rw [cleanTextForEmbedding, if_neg hne]
    show (if (id (List.replicate 30001 'a')).length > maxChars then
        (id (List.replicate 30001 'a')).take maxChars ++ truncationMarker
      else id (List.replicate 30001 'a')).length = 30035
    rw [if_pos (by simp only [id_eq, List.length_replicate, maxChars, gt_iff_lt]; omega)]
    rw [List.length_append, List.length_take, truncationMarker_length]
    simp only [id_eq, List.length_replicate, maxChars]
    omega
  exact ⟨h30, by omega⟩

/-- C5: `embed_texts` maps each input through cleaning and the per-text
embedding oracle in input order (length- and order-preserving), issues one
batched call per group of at most 20 cleaned texts whose concatenation is
exactly the cleaned input list, and on 45 inputs issues 3 calls of sizes
20, 20, 5. -/
theorem embed_texts_batched_order (strip : List Char → List Char)
    (f : List Char → Vec) (texts : List (List Char)) :
    (embed_texts strip f texts).1 = (texts.map (cleanTextForEmbedding strip)).map f ∧
    (embed_texts strip f texts).1.length = texts.length ∧
    (∀ b ∈ (embed_texts strip f texts).2, b.length ≤ 20 ∧ b ≠ []) ∧
    ((embed_texts strip f texts).2).flatten = texts.map (cleanTextForEmbedding strip) ∧
    (texts.length = 45 → ((embed_texts strip f texts).2).map List.length = [20, 20, 5]) := by
  by_cases htexts : texts = []
  · subst htexts
    refine ⟨rfl, rfl, by simp [embed_texts], rfl, by intro h; simp at h⟩
  · rw [embed_texts, if_neg htexts]
    dsimp only
    refine ⟨toBatches_map_map_flatten f _, ?_, ?_, toBatches_flatten _, ?_⟩
    · rw [toBatches_map_map_flatten f _]
      simp
    · intro b hb
      have hs := toBatches_sizes _ b hb
      simpa [maxBatchSize] using hs
    · intro h45
      rw [toBatches_map_length, List.length_map, h45, batchLens_45]

/-- C5 witness: 45 one-character texts produce exactly the batch sizes
20, 20, 5. -/
theorem embed_texts_batched_order_witness :
    ((embed_texts id (fun _ => []) (List.replicate 45 ['a'])).2).map List.length
      = [20, 20, 5] :=
  (embed_texts_batched_order id (fun _ => []) (List.replicate 45 ['a'])).2.2.2.2
    (by simp)


theorem mem_keptChunks {identify : String → String} {content title : String}
    {c : ChunkData} (hc : c ∈ keptChunks identify content title) :
    ∃ p ∈ paragraphsOf content, c.type = identify p := by
  rcases List.mem_filterMap.mp hc with ⟨p, hp, hsome⟩
  by_cases hlen : p.trim.length > 50
  · rw [if_pos hlen] at hsome
    injection hsome with h
    subst h
    exact ⟨p, hp, rfl⟩
  · rw [if_neg hlen] at hsome
    cases hsome

/-- C6: `chunk_content` always returns at least one chunk and always at
least one `"concept"` chunk; and when no paragraph classifies as
`"concept"`, the `"concept"` chunks of the output are exactly the one
synthetic `"Core concept: {title}"` fallback. -/
theorem chunk_content_fallback (identify : String → String)
    (content title : String) :
    1 ≤ (chunk_content identify content title).length ∧
    (∃ c ∈ chunk_content identify content title, c.type = "concept") ∧
    ((∀ p ∈ paragraphsOf content, identify p ≠ "concept") →
      (chunk_content identify content title).filter (fun c => c.type == "concept")
        = [fallbackChunk title]) := by
  rw [chunk_content]
  by_cases hany : (keptChunks identify content title).any
      (fun c => c.type == "concept") = true
  · rw [if_neg (not_not_intro hany)]
    rcases List.any_eq_true.mp hany with ⟨c, hc, hcc⟩
    have hctype : c.type = "concept" := by simpa using hcc
    refine ⟨?_, ⟨c, hc, hctype⟩, ?_⟩
    · have := List.ne_nil_of_mem hc
      have := List.length_pos.mpr this
      omega
    · intro hall
      rcases mem_keptChunks hc with ⟨p, hp, hcp⟩
      exact absurd (hcp ▸ hctype) (hall p hp)
  · rw [if_pos hany]
    have hfb : (fallbackChunk title).type = "concept" := rfl
    refine ⟨?_, ⟨fallbackChunk title, by simp, hfb⟩, ?_⟩
    · simp
    · intro _
      rw [List.filter_append]
      have hnone : (keptChunks identify content title).filter
          (fun c => c.type == "concept") = [] := by
        rw [List.filter_eq_nil_iff]
        intro c hc
        have := List.any_eq_false.mp (Bool.eq_false_iff.mpr hany) c hc
        simpa using this
      rw [hnone]
      simp [fallbackChunk]

/-- C6 witness: with a classifier that never answers `"concept"`, the
output's `"concept"` chunks are exactly the synthetic fallback. -/
theorem chunk_content_fallback_witness :
    (chunk_content (fun _ => "definition")
        "useState is a React hook letting components hold local state.\n\nshort"
        "Hooks").filter (fun c => c.type == "concept") = [fallbackChunk "Hooks"] :=
  (chunk_content_fallback (fun _ => "definition") _ "Hooks").2.2
    (by intro p _; simp)


/-- C2: every chunk returned by `find_relevant_context` belongs to a
subtopic of the queried topic with `order < current_subtopic_index + 1` and
`is_published = true`, for any embedding oracle and any distance metric —
neither the subtopic currently being produced (order `current_index + 1`)
nor any unpublished or future subtopic ever contributes a chunk. -/
theorem find_relevant_context_isolation
    (embedSingle : String → Vec) (dist : Vec → Vec → Rat) (db : VectorDb)
    (topic_id : Int) (query_text : String) (current_subtopic_index : Int)
    (limit : Nat) (r : RetrievedChunk)
    (hr : r ∈ find_relevant_context embedSingle dist db topic_id query_text
      current_subtopic_index limit) :
    ∃ s ∈ db.subtopics, s.topic_id = topic_id ∧ s.order = r.subtopic_order ∧
      s.order < current_subtopic_index + 1 ∧ s.is_published = true ∧
      s.title = r.subtopic_title := by
  rw [find_relevant_context] at hr
  try dsimp only at hr
  rcases List.mem_map.mp hr with ⟨p, hp, hpr⟩
  have hsorted := List.take_subset _ _ hp
  have hfiltered := mem_sortBy hsorted
  rcases List.mem_filter.mp hfiltered with ⟨hjoined, hpred⟩
  simp only [Bool.and_eq_true, beq_iff_eq, decide_eq_true_eq] at hpred
  obtain ⟨⟨htid, horder⟩, hpub⟩ := hpred
  rcases List.mem_flatMap.mp hjoined with ⟨cc, _, hmem⟩
  rcases List.mem_map.mp hmem with ⟨s, hs, hps⟩
  subst hpr
  refine ⟨p.2, ?_, htid, rfl, horder, hpub, rfl⟩
  have hs' := (List.mem_filter.mp hs).1
  rw [← hps]
  exact hs'

/-- C2 witness: the published order-1 chunk of `sampleVectorDb` is returned
when generating subtopic index 1 and satisfies the isolation properties. -/
theorem find_relevant_context_isolation_witness :
    ∃ s ∈ sampleVectorDb.subtopics, s.topic_id = 7 ∧
      s.order = sampleRetrieved.subtopic_order ∧ s.order < 1 + 1 ∧
      s.is_published = true ∧ s.title = sampleRetrieved.subtopic_title :=
  find_relevant_context_isolation (fun _ => []) (fun _ _ => 0) sampleVectorDb
    7 "q" 1 5 sampleRetrieved
    (by simp [find_relevant_context, sampleVectorDb, sampleRetrieved, sortBy, insertBy])

/-- C3: each of the five handlers returns a state with `action = None`, for
every input state, every oracle outcome (success or failure) and every
database contents — no handler re-enters the router with a live action. -/
theorem handlers_clear_action (state : GenerationState)
    (genContent nextGen suggest : Except String String)
    (consultDb publishDb : List SubtopicRow) (now newId : Int) :
    (generate_content_node genContent state).1.action = none ∧
    (edit_content_node state).action = none ∧
    (consult_ai_node suggest consultDb state).1.action = none ∧
    (publish_subtopic_node now newId publishDb state).1.action = none ∧
    (next_subtopic_node nextGen state).1.action = none := by
  refine ⟨?_, ?_, ?_, ?_, ?_⟩
  · rw [generate_content_node]
    try dsimp only
    repeat' split
    all_goals rfl
  · rw [edit_content_node]
    try dsimp only
    repeat' split
    all_goals rfl
  · rw [consult_ai_node]
    try dsimp only
    repeat' split
    all_goals rfl
  · rw [publish_subtopic_node]
    try dsimp only
    repeat' split
    all_goals rfl
  · rw [next_subtopic_node]
    try dsimp only
    repeat' split
    all_goals rfl

/-- C9: the consult handler never mutates the database (the subtopics list
is returned exactly as given) and every state field other than
`ai_suggestions`, `error_message` and `action` is returned unchanged. -/
theorem consult_ai_no_mutation (suggest : Except String String)
    (db : List SubtopicRow) (state : GenerationState) :
    (consult_ai_node suggest db state).2.1 = db ∧
    (consult_ai_node suggest db state).1.session_id = state.session_id ∧
    (consult_ai_node suggest db state).1.topic_id = state.topic_id ∧
    (consult_ai_node suggest db state).1.topic_title = state.topic_title ∧
    (consult_ai_node suggest db state).1.topic_description = state.topic_description ∧
    (consult_ai_node suggest db state).1.level = state.level ∧
    (consult_ai_node suggest db state).1.subtopic_titles = state.subtopic_titles ∧
    (consult_ai_node suggest db state).1.current_subtopic_index = state.current_subtopic_index ∧
    (consult_ai_node suggest db state).1.total_subtopics = state.total_subtopics ∧
    (consult_ai_node suggest db state).1.generated_content = state.generated_content ∧
    (consult_ai_node suggest db state).1.published_subtopics = state.published_subtopics ∧
    (consult_ai_node suggest db state).1.previous_concepts = state.previous_concepts ∧
    (consult_ai_node suggest db state).1.upcoming_concepts = state.upcoming_concepts ∧
    (consult_ai_node suggest db state).1.edit_data = state.edit_data ∧
    (consult_ai_node suggest db state).1.consult_request = state.consult_request ∧
    (consult_ai_node suggest db state).1.current_content = state.current_content ∧
    (consult_ai_node suggest db state).1.previous_subtopics_content = state.previous_subtopics_content ∧
    (consult_ai_node suggest db state).1.key_concepts_extracted = state.key_concepts_extracted ∧
    (consult_ai_node suggest db state).1.conversation_initialized = state.conversation_initialized ∧
    (consult_ai_node suggest db state).1.conversation_token_count = state.conversation_token_count ∧
    (consult_ai_node suggest db state).1.last_conversation_message_id = state.last_conversation_message_id := by
  rw [consult_ai_node]
  try dsimp only
  repeat' split
  all_goals exact ⟨rfl, rfl, rfl, rfl, rfl, rfl, rfl, rfl, rfl, rfl, rfl,
    rfl, rfl, rfl, rfl, rfl, rfl, rfl, rfl, rfl, rfl⟩

/-- C10: when no further subtopic exists (`index ≥ total - 1`), the next
handler is a silent no-op: index and `error_message` are unchanged (no
error is recorded) and `action` is cleared. -/
theorem next_subtopic_out_of_range_noop (genContent : Except String String)
    (state : GenerationState)
    (h : state.total_subtopics - 1 ≤ state.current_subtopic_index) :
    (next_subtopic_node genContent state).1.current_subtopic_index
        = state.current_subtopic_index ∧
    (next_subtopic_node genContent state).1.error_message = state.error_message ∧
    (next_subtopic_node genContent state).1.action = none := by
  rw [next_subtopic_node, if_neg (by omega)]
  exact ⟨rfl, rfl, rfl⟩

/-- C10 witness: at the last of two subtopics the next handler changes
nothing but `action`, keeping the pre-existing `error_message`. -/
theorem next_subtopic_out_of_range_noop_witness :
    (next_subtopic_node (Except.ok "x") lastSubtopicState).1.current_subtopic_index
        = lastSubtopicState.current_subtopic_index ∧
    (next_subtopic_node (Except.ok "x") lastSubtopicState).1.error_message
        = lastSubtopicState.error_message ∧
    (next_subtopic_node (Except.ok "x") lastSubtopicState).1.action = none :=
  next_subtopic_out_of_range_noop (Except.ok "x") lastSubtopicState (by decide)


theorem find?_updateFirst_mem {p : α → Bool} {f : α → α} {l : List α} {a : α}
    (h : l.find? p = some a) : f a ∈ updateFirst p f l := by
  induction l with
  | nil => simp [List.find?] at h
  | cons b t ih =>
    by_cases hb : p b = true
    · rw [List.find?_cons_of_pos _ hb] at h
      injection h with h
      subst h
      rw [updateFirst, if_pos hb]
      exact List.mem_cons_self _ _
    · rw [List.find?_cons_of_neg _ (by simpa using hb)] at h
      rw [updateFirst, if_neg hb]
      exact List.mem_cons_of_mem _ (ih h)

/-- C4 (amended): publish fails with the explicit "No content available to
publish" error and leaves the database untouched exactly when neither
`current_content` is truthy nor `generated_content` has an entry for the
current index; whenever a source yields content — including the empty
string stored in `generated_content` — the target row is written with
`is_published = true` and a non-null `published_at`.  (The claim's "fails
whenever content is empty" is refuted below: an empty `generated_content`
entry is published, not rejected.) -/
theorem publish_subtopic_content_cases (state : GenerationState)
    (db : List SubtopicRow) (now newId : Int) :
    (publishContentSource state = none →
      (publish_subtopic_node now newId db state).1.error_message =
        some ("Publishing failed: No content available to publish for subtopic "
          ++ toString (state.current_subtopic_index + 1)) ∧
      (publish_subtopic_node now newId db state).2 = db) ∧
    (∀ c title, publishContentSource state = some c →
      pyGet? state.subtopic_titles state.current_subtopic_index = some title →
      (publish_subtopic_node now newId db state).1.error_message = none ∧
      ∃ row ∈ (publish_subtopic_node now newId db state).2,
        row.topic_id = state.topic_id ∧
        row.order = state.current_subtopic_index + 1 ∧
        row.content = c ∧ row.is_published = true ∧
        row.published_at = some now) := by
  constructor
  · intro hnone
    rw [publish_subtopic_node]
    try dsimp only
    rw [hnone]
    exact ⟨rfl, rfl⟩
  · intro c title hc htitle
    rw [publish_subtopic_node]
    try dsimp only
    rw [hc, htitle]
    try dsimp only
    refine ⟨rfl, ?_⟩
    by_cases hfind : (db.find? (fun s =>
        s.topic_id == state.topic_id &&
        s.order == state.current_subtopic_index + 1)).isSome = true
    · obtain ⟨a, ha⟩ := Option.isSome_iff_exists.mp hfind
      rw [if_pos hfind]
      have hpa := List.find?_some ha
      simp only [Bool.and_eq_true, beq_iff_eq] at hpa
      exact ⟨_, find?_updateFirst_mem ha, hpa.1, hpa.2, rfl, rfl, rfl⟩
    · rw [if_neg hfind]
      refine ⟨_, List.mem_append_right _ (List.mem_singleton_self _),
        rfl, rfl, rfl, rfl, rfl⟩

/-- C4 witness: with no content source publish reports the explicit error
and writes nothing; with non-empty `current_content` it publishes the row
with `is_published = true` and `published_at = now`. -/
theorem publish_subtopic_content_cases_witness :
    ((publish_subtopic_node 100 1 []
        { emptyContentState with generated_content := [] }).1.error_message =
      some ("Publishing failed: No content available to publish for subtopic "
        ++ toString (({ emptyContentState with generated_content := [] }
            : GenerationState).current_subtopic_index + 1)) ∧
     (publish_subtopic_node 100 1 []
        { emptyContentState with generated_content := [] }).2 = []) ∧
    ((publish_subtopic_node 200 7 [] publishableState).1.error_message = none ∧
     ∃ row ∈ (publish_subtopic_node 200 7 [] publishableState).2,
       row.topic_id = publishableState.topic_id ∧
       row.order = publishableState.current_subtopic_index + 1 ∧
       row.content = "real lesson text" ∧ row.is_published = true ∧
       row.published_at = some 200) :=
  ⟨(publish_subtopic_content_cases
      { emptyContentState with generated_content := [] } [] 100 1).1 (by decide),
   (publish_subtopic_content_cases publishableState [] 200 7).2
      "real lesson text" "S1" (by decide) (by decide)⟩

/-- C4 counterexample: when the only content source is the empty string in
`generated_content[0]`, the publish handler does not fail — it inserts the
subtopic row with empty content, `is_published = true` and a non-null
`published_at`, and reports no error, contradicting "fails whenever the
content is empty". -/
theorem publish_empty_content_is_published :
    (publish_subtopic_node 100 1 [] emptyContentState).2 =
      [{ id := 1, topic_id := 3, order := 1, title := "S1", content := "",
         is_published := true, published_at := some 100 }] ∧
    (publish_subtopic_node 100 1 [] emptyContentState).1.error_message = none := by
  exact ⟨by decide, by decide⟩

/-- C1: evaluating the dispatched generate handler on a state with
`action='generate'` and a valid index: the collaborator trace contains no
`find_relevant_context` call at all — the single call is
`generate_subtopic_content` carrying the first-50-words keyword heuristic
as `previous_concepts` — so generation context is not built by vector
retrieval. -/
theorem generate_content_no_vector_retrieval :
    genDispatchState.action = some "generate" ∧
    0 ≤ genDispatchState.current_subtopic_index ∧
    genDispatchState.current_subtopic_index < genDispatchState.total_subtopics ∧
    (generate_content_node (Except.ok "new text") genDispatchState).2.filter
      ServiceCall.isRetrieval = [] ∧
    (generate_content_node (Except.ok "new text") genDispatchState).2 =
      [ServiceCall.generateSubtopicContent "Topic" "Advanced" "beginner"
        (previousConceptsHeuristic genDispatchState.generated_content 1)
        (upcomingConceptsOf genDispatchState.subtopic_titles 1)] := by
  refine ⟨rfl, by decide, by decide, by decide, rfl⟩


theorem sumTokens_nil : sumTokens [] = 0 := rfl

theorem sumTokens_cons (m : ConvMessage) (l : List ConvMessage) :
    sumTokens (m :: l) = (m.token_count : Int) + sumTokens l := by
  simp [sumTokens]

theorem sumTokens_append (a b : List ConvMessage) :
    sumTokens (a ++ b) = sumTokens a + sumTokens b := by
  simp [sumTokens]

theorem sumTokens_reverse (l : List ConvMessage) :
    sumTokens l.reverse = sumTokens l := by
  simp only [sumTokens, List.map_reverse, List.sum_reverse]

theorem keepRecent_deleted_mem (b : Int) (l : List ConvMessage) (c : Int) :
    ∀ m ∈ (keepRecent b l c).2, m ∈ l := by
  induction l generalizing c with
  | nil => intro m hm; simp [keepRecent] at hm
  | cons x t ih =>
    intro m hm
    rw [keepRecent] at hm
    by_cases hx : c + (x.token_count : Int) ≤ b
    · rw [if_pos hx] at hm
      exact List.mem_cons_of_mem _ (ih _ m hm)
    · rw [if_neg hx] at hm
      rcases List.mem_cons.mp hm with h | h
      · simp [h]
      · exact List.mem_cons_of_mem _ (ih _ m h)

theorem keepRecent_sum_partition (b : Int) (l : List ConvMessage) (c : Int) :
    sumTokens (keepRecent b l c).1 + sumTokens (keepRecent b l c).2
      = sumTokens l := by
  induction l generalizing c with
  | nil => simp [keepRecent, sumTokens_nil]
  | cons x t ih =>
    rw [keepRecent]
    by_cases hx : c + (x.token_count : Int) ≤ b
    · rw [if_pos hx]
      dsimp only
      rw [sumTokens_append, sumTokens_cons, sumTokens_cons, sumTokens_nil]
      have hih := ih (c + (x.token_count : Int))
      omega
    · rw [if_neg hx]
      dsimp only
      rw [sumTokens_cons, sumTokens_cons]
      have hih := ih c
      omega

theorem keepRecent_kept_le (b : Int) (l : List ConvMessage) (c : Int) :
    sumTokens (keepRecent b l c).1 + c ≤ max b c := by
  induction l generalizing c with
  | nil =>
    simp only [keepRecent, sumTokens_nil]
    omega
  | cons x t ih =>
    rw [keepRecent]
    by_cases hx : c + (x.token_count : Int) ≤ b
    · rw [if_pos hx]
      dsimp only
      rw [sumTokens_append, sumTokens_cons, sumTokens_nil]
      have hih := ih (c + (x.token_count : Int))
      omega
    · rw [if_neg hx]
      dsimp only
      exact ih c

theorem sumTokens_system_partition (l : List ConvMessage) :
    sumTokens (l.filter (fun m => m.role == "system")) +
      sumTokens (l.filter (fun m => m.role != "system")) = sumTokens l := by
  induction l with
  | nil => rfl
  | cons x t ih =>
    rw [sumTokens_cons, List.filter_cons, List.filter_cons]
    by_cases hx : (x.role == "system") = true
    · rw [if_pos hx, if_neg (by simp [bne, hx]), sumTokens_cons]
      omega
    · have hx' : (x.role == "system") = false := by simpa using hx
      rw [if_neg hx, if_pos (by simp [bne, hx']), sumTokens_cons]
      omega

/-- C8 (amended): when the stored conversation exceeds the 4000-token
budget, truncation retains every system-role message and deletes only
non-system messages, and the counter is set to the token sum of the
retained messages (total minus deleted, bounded by
`max 4000 (system tokens)`); however the deletions come from a greedy
newest-first scan — each message that no longer fits the remaining budget
is deleted, even when an older message is retained — not from oldest-first
prefix eviction. -/
theorem truncate_conversation_greedy (messages : List ConvMessage)
    (h : sumTokens messages > (maxConversationTokens : Int)) :
    (∀ m ∈ (truncate_conversation_if_needed messages).deleted,
      m.role ≠ "system") ∧
    (∀ m ∈ messages, m.role = "system" →
      m ∈ (truncate_conversation_if_needed messages).retained) ∧
    (truncate_conversation_if_needed messages).new_token_count =
      some (sumTokens messages -
        sumTokens (truncate_conversation_if_needed messages).deleted) ∧
    (∃ c, (truncate_conversation_if_needed messages).new_token_count = some c ∧
      c ≤ max (maxConversationTokens : Int)
        (sumTokens (messages.filter (fun m => m.role == "system")))) := by
  rw [truncate_conversation_if_needed, if_pos h]
  try dsimp only
  refine ⟨?_, ?_, ?_, ?_⟩
  · intro m hm
    have hmem := keepRecent_deleted_mem _ _ _ m hm
    rw [List.mem_reverse] at hmem
    have hne := (List.mem_filter.mp hmem).2
    simpa [bne] using hne
  · intro m hm hsys
    apply List.mem_filter.mpr
    refine ⟨hm, ?_⟩
    by_cases hmem : m ∈ (keepRecent
        ((maxConversationTokens : Int) -
          sumTokens (messages.filter (fun m => m.role == "system")))
        (messages.filter (fun m => m.role != "system")).reverse 0).2
    · have hmem2 := keepRecent_deleted_mem _ _ _ m hmem
      rw [List.mem_reverse] at hmem2
      have hne := (List.mem_filter.mp hmem2).2
      exact absurd hsys (by simpa [bne] using hne)
    · simp [hmem]
  · have hpart := keepRecent_sum_partition
      ((maxConversationTokens : Int) -
        sumTokens (messages.filter (fun m => m.role == "system")))
      (messages.filter (fun m => m.role != "system")).reverse 0
    rw [sumTokens_reverse] at hpart
    have hfil := sumTokens_system_partition messages
    rw [sumTokens_append]
    congr 1
    omega
  · refine ⟨_, rfl, ?_⟩
    have hk := keepRecent_kept_le
      ((maxConversationTokens : Int) -
        sumTokens (messages.filter (fun m => m.role == "system")))
      (messages.filter (fun m => m.role != "system")).reverse 0
    rw [sumTokens_append]
    omega

/-- C8 witness: the over-budget sample conversation is truncated, all its
guarantees instantiated. -/
theorem truncate_conversation_greedy_witness :
    ∃ c, (truncate_conversation_if_needed overBudgetConversation).new_token_count
        = some c ∧
      c ≤ max (maxConversationTokens : Int)
        (sumTokens (overBudgetConversation.filter (fun m => m.role == "system"))) :=
  (truncate_conversation_greedy overBudgetConversation (by decide)).2.2.2

/-- C8 counterexample: on `overBudgetConversation` the code deletes exactly
the newer 100-token non-system message and retains the strictly older
5-token non-system message, so the deleted messages are not the oldest
non-system messages; oldest-first eviction (modelled from the spec) would
delete the two oldest non-system messages instead. -/
theorem truncate_conversation_not_oldest_first :
    (truncate_conversation_if_needed overBudgetConversation).deleted =
      [{ id := 3, role := "user", content := "middle big", token_count := 100 }] ∧
    ({ id := 2, role := "user", content := "old small", token_count := 5 }
        : ConvMessage)
      ∈ (truncate_conversation_if_needed overBudgetConversation).retained ∧
    (specEvictOldestFirst
        ((maxConversationTokens : Int) -
          sumTokens (overBudgetConversation.filter (fun m => m.role == "system")))
        (overBudgetConversation.filter (fun m => m.role != "system"))).2 =
      [{ id := 2, role := "user", content := "old small", token_count := 5 },
       { id := 3, role := "user", content := "middle big", token_count := 100 }] := by
  exact ⟨by decide, by decide, by decide⟩

end LecNotes
